import Mathlib

/-!
Verification development for the targa data-mapping library.

The library translates typed in-memory records (models) into SQL statements
sent over a single managed connection.  The definitions below are a shallow
embedding of the relevant parts of the Python sources:

* `src/targa/model.py`   : `Model.__init__` field validation loop and
                           `Model._get_table_name`.
* `src/targa/database.py`: `Database.connect`, `Database._ensure_connection`,
                           `Database.insert`, `Database.query` (placeholder
                           substitution and the execute/retry block) and
                           `Database.update`.
* `src/targa/keys.py`    : the `_PK` primary-key marker, reflected in the
                           `FieldAnn.pk` constructor.

The external wire-protocol driver (aiomysql) is abstracted: its escaping
capability is a `String → String` parameter carried by `Conn`, and the
outcomes of the network calls made by one `query` invocation are supplied
through an `ExecOracle`.  Definitions whose doc comment says so are modelled
from the specification because the corresponding module (the packaged
`targa.errors`) is not among the provided sources.
-/

/-- Runtime Python values that can appear as model field values or
substitution values: integers, strings, booleans and `None`. -/
inductive PyValue where
  | vInt : Int → PyValue
  | vStr : String → PyValue
  | vBool : Bool → PyValue
  | vNone : PyValue
deriving DecidableEq, Repr

/-- The runtime classes of the values above, as compared by
`kwargs[field].__class__ != expected_type` in `Model.__init__`. -/
inductive PyType where
  | tInt | tStr | tBool | tNoneType
deriving DecidableEq, Repr

/-- The class of a runtime value (`x.__class__`).  A Python `bool` reports
class `bool`, not `int`. -/
def PyValue.classOf : PyValue → PyType
  | .vInt _ => .tInt
  | .vStr _ => .tStr
  | .vBool _ => .tBool
  | .vNone => .tNoneType

/-- Python `str(x)` for the embedded values. -/
def pyStr : PyValue → String
  | .vInt i => toString i
  | .vStr s => s
  | .vBool b => if b then "True" else "False"
  | .vNone => "None"

/-- Python truthiness (`if x:`) for the embedded values. -/
def pyTruthy : PyValue → Bool
  | .vInt i => i != 0
  | .vStr s => s != ""
  | .vBool b => b
  | .vNone => false

/-- A declared type expression: either a plain class or an optional wrapper
`Optional[T]` (whose `__args__` tuple ends in `NoneType`). -/
inductive TypeExpr where
  | cls : PyType → TypeExpr
  | optional : PyType → TypeExpr
deriving DecidableEq, Repr

/-- A field declaration: either a bare type expression or one wrapped in the
`_PK` primary-key marker from `keys.py`. -/
inductive FieldAnn where
  | plain : TypeExpr → FieldAnn
  | pk : TypeExpr → FieldAnn
deriving DecidableEq, Repr

/-- `isinstance(expected_type, _PK)` unwrapping from `Model.__init__`:
a `_PK` marker is replaced by the type it carries. -/
def unwrapPK : FieldAnn → TypeExpr
  | .plain e => e
  | .pk e => e

/-- Whether `value.__class__ == expected_type`.  A runtime class is never
equal to a typing alias such as `Optional[int]`, so an optional expected
type always compares unequal. -/
def classMatches (v : PyValue) : TypeExpr → Bool
  | .cls t => v.classOf = t
  | .optional _ => false

/-- The `hasattr(expected_type, "__args__") and expected_type.__args__[-1]
== type(None)` test from `Model.__init__`. -/
def hasNoneLast : TypeExpr → Bool
  | .cls _ => false
  | .optional _ => true

/-- The Python class of a declared field value as seen by
`type(x[1])` in `Database.update`: the `_PK` class for primary-key markers,
an ordinary class or a typing alias otherwise. -/
inductive PyClass where
  | pkCls | typeCls | aliasCls
deriving DecidableEq, Repr

/-- `type(x[1])` applied to a field declaration. -/
def annPyClass : FieldAnn → PyClass
  | .pk _ => .pkCls
  | .plain (.cls _) => .typeCls
  | .plain (.optional _) => .aliasCls

/-- The exceptions raised along the embedded code paths.  The constructors
`initializationError` and `substError` stand for the classes exported by the
packaged `targa.errors` module, which is not among the provided sources; the
specification describes them as distinct catchable kinds, and they are
modelled as distinct constructors accordingly.  `operationalError` carries
the `args` tuple of a database-driver exception. -/
inductive PyError where
  | initializationError : String → PyError
  | substError : String → PyError
  | attributeError : String → PyError
  | typeError : String → PyError
  | keyError : String → PyError
  | valueError : String → PyError
  | runtimeError : String → PyError
  | operationalError : List PyValue → PyError
deriving DecidableEq, Repr

/-- The `args` tuple of an exception: driver errors carry their own tuple,
the other kinds carry their message. -/
def PyError.args : PyError → List PyValue
  | .operationalError a => a
  | .initializationError m => [.vStr m]
  | .substError m => [.vStr m]
  | .attributeError m => [.vStr m]
  | .typeError m => [.vStr m]
  | .keyError m => [.vStr m]
  | .valueError m => [.vStr m]
  | .runtimeError m => [.vStr m]

/-- `isinstance(e, RuntimeError)`. -/
def PyError.isRuntimeError : PyError → Bool
  | .runtimeError _ => true
  | _ => false

namespace MySQLErrors

/-- Modelled from the spec: the duplicate-primary-key database error code
exported by the packaged errors module, which is not among the provided
sources.  Rendered as the MySQL duplicate-entry code; every theorem below
depends only on it being one fixed distinguished value. -/
def duplicate_primary_key : PyValue := PyValue.vInt 1062

end MySQLErrors

/-- The character-escaping table of the external driver
(`connection.escape_string`, backed by the pymysql backslash-escaping
table).  Used only to instantiate the connection's abstract escaping
capability at concrete inputs; note that `?` is not escaped. -/
def mysqlEscapeChar (c : Char) : List Char :=
  if c = Char.ofNat 0 then ['\\', '0']
  else if c = '\n' then ['\\', 'n']
  else if c = '\r' then ['\\', 'r']
  else if c = Char.ofNat 26 then ['\\', 'Z']
  else if c = '\'' then ['\\', '\'']
  else if c = '\"' then ['\\', '\"']
  else if c = '\\' then ['\\', '\\']
  else [c]

/-- String-level escaping of the external driver, applied character by
character. -/
def mysqlEscape (s : String) : String :=
  ⟨(s.data.map mysqlEscapeChar).flatten⟩

/-- The live connection handle wrapped by a `Database`: the only capability
the embedded code paths consume from it is `escape_string` on strings. -/
structure Conn where
  esc : String → String

/-- `targa.Database`: a wrapper holding `self._connection`, which is `None`
until `connect` succeeds. -/
structure Database where
  _connection : Option Conn

/-- One declared model field together with its current `__dict__` value. -/
structure FieldSpec where
  name : String
  ann : FieldAnn
  value : PyValue
deriving DecidableEq, Repr

/-- A constructed model instance: its class name and its declared fields in
declaration order (statement generation iterates `__annotations__` and reads
`__dict__[field]`, which after construction holds one value per declared
field). -/
structure ModelInst where
  className : String
  fields : List FieldSpec
deriving DecidableEq, Repr

/-! ### Model.__init__ (src/targa/model.py, field loop) -/

/-- Python dict assignment `d[k] = v`: replace the existing entry or append
a new one. -/
def dictSet : List (String × PyValue) → String → PyValue → List (String × PyValue)
  | [], k, v => [(k, v)]
  | (k0, v0) :: t, k, v => if k0 = k then (k, v) :: t else (k0, v0) :: dictSet t k v

/-- The type-mismatch message of `Model.__init__`, naming the actual class
and the field (quoting omitted). -/
def mismatchMsg (field : String) (v : PyValue) : String :=
  "Invalid object of type " ++ (match v.classOf with
    | .tInt => "int" | .tStr => "str" | .tBool => "bool" | .tNoneType => "NoneType")
    ++ " provided for field " ++ field

/-- The field loop of `Model.__init__`: for each declared field check that a
value was supplied or an instance-dict default exists, read `kwargs[field]`,
compare its class with the (PK-unwrapped) declared type, allow a mismatch
only in the optional branch when the supplied value is falsy, and store the
value into the instance dict. -/
def modelInitLoop (kwargs : List (String × PyValue)) :
    List (String × FieldAnn) → List (String × PyValue) →
    Except PyError (List (String × PyValue))
  | [], dict => .ok dict
  | (field, ann0) :: rest, dict =>
    if kwargs.lookup field = none ∧ dict.lookup field = none then
      .error (.attributeError ("No value provided for field " ++ field))
    else
      match kwargs.lookup field with
      | none => .error (.keyError field)
      | some v =>
        let expected := unwrapPK ann0
        if classMatches v expected then
          modelInitLoop kwargs rest (dictSet dict field v)
        else if hasNoneLast expected then
          if pyTruthy v then .error (.typeError (mismatchMsg field v))
          else modelInitLoop kwargs rest (dictSet dict field v)
        else .error (.typeError (mismatchMsg field v))

/-- `Model.__init__` on a derived class: run the field loop over the
declared fields with the supplied keyword arguments, starting from the
instance dict `dict0` as it stands when the loop is entered. -/
def modelInit (decls : List (String × FieldAnn)) (kwargs : List (String × PyValue))
    (dict0 : List (String × PyValue)) : Except PyError (List (String × PyValue)) :=
  modelInitLoop kwargs decls dict0

/-! ### Model._get_table_name (src/targa/model.py) -/

/-- The index-rewriting loop of `_get_table_name`: walk the name, and in
front of every uppercase character at a positive position splice in an
underscore, then continue past it. -/
def tnLoop (s : List Char) (n : Nat) : List Char :=
  if h : n < s.length then
    if (s.get ⟨n, h⟩).isUpper ∧ 0 < n then
      tnLoop (s.take n ++ '_' :: s.drop n) (n + 2)
    else
      tnLoop s (n + 1)
  else s
termination_by s.length - n
decreasing_by
  · simp only [List.length_append, List.length_take, List.length_cons, List.length_drop]
    omega
  · omega

/-- `Model._get_table_name` applied to a class name: run the underscore
loop from position 0, lowercase the result, and append `s` unless the
result already ends with `s`. -/
def _get_table_name (className : String) : String :=
  let t := tnLoop className.data 0
  let low := t.map Char.toLower
  ⟨if low.getLast? = some 's' then low else low ++ ['s']⟩

/-- The separator-insertion pass as the spec words it: before every interior
uppercase letter (here: every uppercase letter of the tail) insert an
underscore. -/
def specUnderscore : List Char → List Char
  | [] => []
  | c :: t => (if c.isUpper then ['_', c] else [c]) ++ specUnderscore t

/-- The table-name algorithm as the spec words it: keep the first character,
insert a separator before every interior uppercase letter, lowercase the
whole result, and append the suffix `s` unless the result already literally
ends with `s`. -/
def specTableName (className : String) : String :=
  let body : List Char :=
    match className.data with
    | [] => []
    | c :: t => c :: specUnderscore t
  let low := body.map Char.toLower
  ⟨if low.getLast? = some 's' then low else low ++ ['s']⟩

/-! ### Placeholder substitution (src/targa/database.py, Database.query) -/

/-- Python `str.index(ch)`: the least index holding `ch`, `none` when the
character does not occur (the caller then raises). -/
def strIndex (ch : Char) : List Char → Option Nat
  | [] => none
  | c :: t => if c = ch then some 0 else (strIndex ch t).map (· + 1)

/-- The message of the substitution-count error raised by `Database.query`. -/
def substMsg : String := "Not enough values to substitute for in provided query"

/-- The substitution loop of `Database.query`, exactly as the source walks
it: for each value find the leftmost `?` of the current (whole, already
rewritten) query text, and splice the escaped value over it.  The search is
`query.index('?')` on the rewritten text, so it restarts from the beginning
each iteration. -/
def substLoop (esc : String → String) : List Char → List String → Except PyError (List Char)
  | q, [] => .ok q
  | q, v :: vs =>
    match strIndex '?' q with
    | none => .error (.substError substMsg)
    | some index => substLoop esc (q.take index ++ (esc v).data ++ q.drop (index + 1)) vs

/-- Split a query at its first `?`: `some (a, b)` when the text is
`a ++ '?' :: b` with no `?` in `a`, `none` when no `?` occurs.  Recursive
reformulation of `strIndex` with take/drop, used by the proofs. -/
def splitQ : List Char → Option (List Char × List Char)
  | [] => none
  | c :: t =>
    if c = '?' then some ([], t)
    else (splitQ t).map (fun p => (c :: p.1, p.2))

/-- The substitution loop rewritten through `splitQ`; proved equal to
`substLoop` below. -/
def substSplit (esc : String → String) : List Char → List String → Except PyError (List Char)
  | q, [] => .ok q
  | q, v :: vs =>
    match splitQ q with
    | none => .error (.substError substMsg)
    | some (a, b) => substSplit esc (a ++ (esc v).data ++ b) vs

/-- The substitution algorithm as the spec words it: locate the leftmost
remaining `?`, replace it with the escaped value, and advance past the
replacement before searching for the next token — text already substituted
is never rescanned. -/
def substSpec (esc : String → String) : List Char → List String → Except PyError (List Char)
  | q, [] => .ok q
  | q, v :: vs =>
    match splitQ q with
    | none => .error (.substError substMsg)
    | some (a, b) => (substSpec esc b vs).map (fun r => a ++ (esc v).data ++ r)

/-- The substitution loop as run inside `Database.query`: every escape goes
through `self._connection.escape_string`, so with no live connection the
attribute access on `None` raises. -/
def substLoopConn (oc : Option Conn) : List Char → List String → Except PyError (List Char)
  | q, [] => .ok q
  | q, v :: vs =>
    match strIndex '?' q with
    | none => .error (.substError substMsg)
    | some index =>
      match oc with
      | none => .error (.attributeError "NoneType object has no attribute escape_string")
      | some c => substLoopConn oc (q.take index ++ (c.esc v).data ++ q.drop (index + 1)) vs

/-! ### Execute/retry discipline (src/targa/database.py, Database.query) -/

/-- Outcomes of the external network calls made by one `query` invocation:
the first `cursor.execute`, the `ping` issued after a failure, the retried
`cursor.execute`, and the result shape (`cursor.description` and the
fetched rows).  `none` means the call succeeded. -/
structure ExecOracle where
  first : Option PyError
  pingRetry : Option PyError
  retry : Option PyError
  description : Option (List String)
  rows : List (List PyValue)

/-- The try/except block around `cursor.execute` in `Database.query`: on a
first failure ping the connection and retry once; the retry failure is
swallowed exactly when the first failure was a `RuntimeError` and the retry
error's `args[0]` is the duplicate-primary-key code; any other retry
failure is re-raised. -/
def executeRetry (first pingOut retryOut : Option PyError) : Except PyError Unit :=
  match first with
  | none => .ok ()
  | some outer_ex =>
    match pingOut with
    | some pe => .error pe
    | none =>
      match retryOut with
      | none => .ok ()
      | some e =>
        if outer_ex.isRuntimeError && decide (0 < e.args.length)
            && decide (e.args.headD PyValue.vNone = MySQLErrors.duplicate_primary_key) then
          .ok ()
        else .error e

/-! ### Database methods (src/targa/database.py) -/

/-- `Database._ensure_connection`: raise the initialization error when no
connection was ever established, otherwise ping it (the liveness probe is an
external call, abstracted as succeeding). -/
def Database._ensure_connection (db : Database) : Except PyError Unit :=
  match db._connection with
  | none => .error (.initializationError "Database connection was never initialized")
  | some _ => .ok ()

/-- An attribute access through `self._connection` (for `cursor`, `commit`
or `escape_string`): on a never-connected database this is an attribute
access on `None` and raises `AttributeError`. -/
def Database.getConn (db : Database) : Except PyError Conn :=
  match db._connection with
  | none => .error (.attributeError "NoneType object has no attribute")
  | some c => .ok c

/-- `Database.query`: optionally ensure the connection, run the
substitution loop, open a cursor, execute with the retry discipline, and
shape the result — `none` when the statement produced no column
descriptors, otherwise each row zipped with the column names. -/
def Database.query (db : Database) (o : ExecOracle) (q : String)
    (substitutions : List PyValue) (ensure_conn : Bool) :
    Except PyError (Option (List (List (String × PyValue)))) := do
  if ensure_conn then db._ensure_connection else pure ()
  let _q2 ← substLoopConn db._connection q.data (substitutions.map pyStr)
  let _c ← db.getConn
  executeRetry o.first o.pingRetry o.retry
  match o.description with
  | none => pure none
  | some cols => pure (some (o.rows.map (fun r => cols.zip r)))

/-- The quote character used around escaped values in generated
statements. -/
def quoteChar : Char := '\''

/-- One `VALUES` item appended by the `insert` loop: the quoted escaped
`str` of the value, or the literal `NULL`, each followed by the separator
the loop always appends. -/
def insertValItem (esc : String → String) (v : PyValue) : List Char :=
  if v = PyValue.vNone then "NULL, ".data
  else quoteChar :: (esc (pyStr v)).data ++ quoteChar :: ", ".data

/-- The joining of pieces with a separator performed by Python str.join,
generalised to character lists. -/
def joinSep (sep : List Char) : List (List Char) → List Char
  | [] => []
  | [x] => x
  | x :: y :: t => x ++ sep ++ joinSep sep (y :: t)

/-- The INSERT statement text built by `Database.insert`: the header with
the derived table name and the joined column names, the accumulated value
items, the trailing two characters sliced off, and the closing paren. -/
def insertQueryData (esc : String → String) (m : ModelInst) : List Char :=
  let query0 := "INSERT INTO ".data ++ (_get_table_name m.className).data ++ " (".data
      ++ joinSep ", ".data (m.fields.map (fun f => f.name.data))
      ++ ")\nVALUES (".data
  let query1 := query0 ++ (m.fields.map (fun f => insertValItem esc f.value)).flatten
  query1.dropLast.dropLast ++ ")".data

/-- One `VALUES` item as the spec words it: the single-quoted escaped
textual form of the value, or the unquoted literal `NULL` for the absence
marker. -/
def insertSpecVal (esc : String → String) (v : PyValue) : List Char :=
  if v = PyValue.vNone then "NULL".data
  else quoteChar :: (esc (pyStr v)).data ++ [quoteChar]

/-- `Database.insert`: ensure the connection, build the INSERT statement
through the connection's escaping, execute it via `query` with the liveness
check skipped, and commit (an external call, abstracted as succeeding). -/
def Database.insert (db : Database) (o : ExecOracle) (m : ModelInst) :
    Except PyError Unit := do
  db._ensure_connection
  let c ← db.getConn
  let q : String := ⟨insertQueryData c.esc m⟩
  let _ ← db.query o q [] false
  pure ()

/-- Python `list.index(x)` semantics: index of the first occurrence, `none`
when absent (the caller then raises `ValueError`). -/
def listIndex (x : PyClass) : List PyClass → Option Nat
  | [] => none
  | c :: t => if c = x then some 0 else (listIndex x t).map (· + 1)

/-- The external driver's `escape_string` applied to an arbitrary object,
as `Database.update` does for the primary-key value: the driver translates
the characters of a `str`; any other argument lacks the translate method
and raises `AttributeError`. -/
def Conn.escapeObj (c : Conn) (v : PyValue) : Except PyError String :=
  match v with
  | .vStr s => .ok (c.esc s)
  | _ => .error (.attributeError "object has no attribute translate")

/-- The WHERE-clause generation of `Database.update` when no clause was
supplied: take the index of the first `_PK`-classed declaration
(`list.index` raises `ValueError` when there is none), guard it against
being negative (the source's unreachable `else` raises the `KeyError`), and
build the clause from the escaped primary-key value read through
`self._connection`. -/
def buildWhere (db : Database) (m : ModelInst) : Except PyError String :=
  match listIndex .pkCls (m.fields.map (fun f => annPyClass f.ann)) with
  | none => .error (.valueError "is not in list")
  | some pk_field_index =>
    if pk_field_index ≥ 0 then
      let pk_field := ((m.fields.map (fun f => f.name)).get? pk_field_index).getD ""
      let pk_value := ((m.fields.find? (fun f => f.name = pk_field)).map
          (fun f => f.value)).getD PyValue.vNone
      match db._connection with
      | none => .error (.attributeError "NoneType object has no attribute escape_string")
      | some c =>
        match c.escapeObj pk_value with
        | .error e => .error e
        | .ok ev =>
          .ok ("WHERE " ++ pk_field ++ " = " ++ ⟨quoteChar :: ev.data ++ [quoteChar]⟩)
    else .error (.keyError "A WHERE clause is required if a primary key was not annotated")

/-- WHERE-clause resolution of `Database.update`: `if not where_clause`
uses truthiness, so both an absent and an empty clause trigger generation;
a non-empty supplied clause is used verbatim. -/
def resolveWhere (db : Database) (m : ModelInst) : Option String → Except PyError String
  | some w => if w = "" then buildWhere db m else .ok w
  | none => buildWhere db m

/-- One `SET` item appended by the `update` loop: `field = '<escaped>'` or
`field = NULL`, each followed by the separator the loop always appends. -/
def updateSetItem (esc : String → String) (f : FieldSpec) : List Char :=
  if f.value = PyValue.vNone then f.name.data ++ " = NULL, ".data
  else f.name.data ++ " = ".data ++ quoteChar :: (esc (pyStr f.value)).data
      ++ quoteChar :: ", ".data

/-- The UPDATE statement text built by `Database.update`: header, the
accumulated SET items with the trailing two characters sliced off, a
newline, the WHERE clause, and a semicolon. -/
def updateQueryData (esc : String → String) (m : ModelInst) (wc : String) : List Char :=
  let query0 := "UPDATE ".data ++ (_get_table_name m.className).data ++ "\nSET ".data
      ++ (m.fields.map (updateSetItem esc)).flatten
  query0.dropLast.dropLast ++ '\n' :: wc.data ++ ";".data

/-- `Database.update`: resolve the WHERE clause first (as the source does,
before the liveness check), then ensure the connection, build the UPDATE
statement, execute it via `query` with the liveness check skipped, and
commit. -/
def Database.update (db : Database) (o : ExecOracle) (m : ModelInst)
    (where_clause : Option String) : Except PyError Unit := do
  let wc ← resolveWhere db m where_clause
  db._ensure_connection
  let c ← db.getConn
  let q : String := ⟨updateQueryData c.esc m wc⟩
  let _ ← db.query o q [] false
  pure ()

/-! ### Database.connect (src/targa/database.py) -/

/-- The keyword arguments `Database.connect` hands to the external
`aiomysql.connect`; a field is `none` when the corresponding keyword is not
passed and the driver falls back to its own default. -/
structure AiomysqlArgs where
  host : String
  user : String
  password : String
  db : String
  port : Option Nat
  autocommit : Bool
deriving DecidableEq, Repr

/-- `Database.connect` (its Python signature defaults `port` to 3306 and
`autocommit` to `true`): the call it makes to the external driver passes
host, user, password, database name and autocommit — and omits the port
keyword entirely. -/
def Database.connect (host username password database_name : String)
    (port : Nat) (autocommit : Bool) : AiomysqlArgs :=
  { host := host
    user := username
    password := password
    db := database_name
    port := none
    autocommit := autocommit }

/-! ### Concrete instances used by witnesses and counterexamples -/

/-- An oracle in which every external call succeeds and the statement
returns no result set. -/
def oracle0 : ExecOracle := ⟨none, none, none, none, []⟩

/-- A never-connected database (`self._connection` is `None`). -/
def dbNone : Database := ⟨none⟩

/-- A connected database whose escaping capability is the modelled driver
escaping. -/
def dbConn : Database := ⟨some ⟨mysqlEscape⟩⟩

/-- A model with a single integer primary-key field `id = 1`. -/
def mPk : ModelInst :=
  ⟨"Team", [⟨"id", FieldAnn.pk (TypeExpr.cls PyType.tInt), PyValue.vInt 1⟩]⟩

/-- A model with no primary-key-marked field. -/
def mNoPk : ModelInst :=
  ⟨"Team", [⟨"name", FieldAnn.plain (TypeExpr.cls PyType.tStr), PyValue.vStr "x"⟩]⟩

/-- The spec's example instance: `id: PK[int] = 1`, `name: str = "Alice"`,
`age: Optional[int] = None`, on a model class named `EventTeam`. -/
def mEx : ModelInst :=
  ⟨"EventTeam",
   [⟨"id", FieldAnn.pk (TypeExpr.cls PyType.tInt), PyValue.vInt 1⟩,
    ⟨"name", FieldAnn.plain (TypeExpr.cls PyType.tStr), PyValue.vStr "Alice"⟩,
    ⟨"age", FieldAnn.plain (TypeExpr.optional PyType.tInt), PyValue.vNone⟩]⟩

/-! ## Lemmas: table-name derivation -/

theorem getAppendLen (pre : List Char) (c : Char) (cs : List Char)
    (h : pre.length < (pre ++ c :: cs).length) :
    (pre ++ c :: cs).get ⟨pre.length, h⟩ = c := by
  induction pre with
  | nil => rfl
  | cons x xs ih => exact ih (by simp)

theorem tnLoop_append (suf : List Char) : ∀ pre : List Char, pre ≠ [] →
    tnLoop (pre ++ suf) pre.length = pre ++ specUnderscore suf := by
  induction suf with
  | nil =>
    intro pre hpre
    rw [tnLoop, dif_neg (by simp)]
    simp [specUnderscore]
  | cons c cs ih =>
    intro pre hpre
    have hlen : pre.length < (pre ++ c :: cs).length := by simp
    have hpos : 0 < pre.length := List.length_pos.mpr hpre
    rw [tnLoop, dif_pos hlen, getAppendLen pre c cs hlen]
    by_cases hu : c.isUpper
    · rw [if_pos ⟨hu, hpos⟩, List.take_left pre (c :: cs), List.drop_left pre (c :: cs)]
      have e1 : pre ++ '_' :: c :: cs = (pre ++ ['_', c]) ++ cs := by simp
      have e2 : pre.length + 2 = (pre ++ ['_', c]).length := by simp
      rw [e1, e2, ih (pre ++ ['_', c]) (by simp)]
      simp [specUnderscore, hu]
    · rw [if_neg (fun hc => hu hc.1)]
      have e1 : pre ++ c :: cs = (pre ++ [c]) ++ cs := by simp
      have e2 : pre.length + 1 = (pre ++ [c]).length := by simp
      rw [e1, e2, ih (pre ++ [c]) (by simp)]
      simp [specUnderscore, hu]

theorem tnLoop_nil : tnLoop [] 0 = [] := by
  rw [tnLoop]
  simp

theorem tnLoop_cons (c : Char) (t : List Char) :
    tnLoop (c :: t) 0 = c :: specUnderscore t := by
  rw [tnLoop, dif_pos (by simp), if_neg (by simp)]
  simpa using tnLoop_append t [c] (by simp)

theorem table_name_eq_spec (s : String) : _get_table_name s = specTableName s := by
  rcases hs : s.data with _ | ⟨c, t⟩ <;>
    simp only [_get_table_name, specTableName, hs, tnLoop_nil, tnLoop_cons]

/-- C5: for every model type name the derived table name inserts a
separator before every interior uppercase letter, lowercases the whole
result, and appends `s` unless the result already literally ends with `s`
(a literal suffix check only); in particular `EventTeam` yields
`event_teams`, `Team` yields `teams`, and `Bus` yields `bus`.  The
derivation `_get_table_name` is a total function with no failure modes. -/
theorem claim_C5_thm :
    (∀ s : String, _get_table_name s = specTableName s)
    ∧ _get_table_name "EventTeam" = "event_teams"
    ∧ _get_table_name "Team" = "teams"
    ∧ _get_table_name "Bus" = "bus" :=
  ⟨table_name_eq_spec,
   (table_name_eq_spec "EventTeam").trans (by decide),
   (table_name_eq_spec "Team").trans (by decide),
   (table_name_eq_spec "Bus").trans (by decide)⟩

/-! ## Lemmas: placeholder substitution -/

theorem splitQ_none_iff : ∀ q : List Char, splitQ q = none ↔ '?' ∉ q := by
  intro q
  induction q with
  | nil => simp [splitQ]
  | cons c t ih =>
    by_cases hc : c = '?'
    · subst hc; simp [splitQ]
    · cases h : splitQ t <;> simp [splitQ, hc, h, ← ih, Ne.symm hc]

theorem splitQ_some : ∀ (q a b : List Char), splitQ q = some (a, b) →
    q = a ++ '?' :: b ∧ '?' ∉ a := by
  intro q
  induction q with
  | nil => intro a b h; cases h
  | cons c t ih =>
    intro a b h
    by_cases hc : c = '?'
    · subst hc
      rw [splitQ, if_pos rfl] at h
      cases h
      simp
    · rw [splitQ, if_neg hc] at h
      cases hsp : splitQ t with
      | none => rw [hsp] at h; cases h
      | some p =>
        obtain ⟨a2, b2⟩ := p
        rw [hsp] at h
        simp only [Option.map_some', Option.some.injEq, Prod.mk.injEq] at h
        obtain ⟨hq, hna⟩ := ih a2 b2 hsp
        obtain ⟨ha, hb⟩ := h
        subst ha
        subst hb
        constructor
        · rw [hq]; rfl
        · intro hm
          rcases List.mem_cons.mp hm with h1 | h2
          · exact hc h1.symm
          · exact hna h2

theorem strIndex_eq_splitQ : ∀ q : List Char,
    strIndex '?' q = (splitQ q).map (fun p => p.1.length) := by
  intro q
  induction q with
  | nil => rfl
  | cons c t ih =>
    by_cases hc : c = '?'
    · simp [strIndex, splitQ, hc]
    · cases h : splitQ t <;> simp [strIndex, splitQ, hc, h, ih]

theorem substLoop_eq_substSplit (esc : String → String) :
    ∀ (vs : List String) (q : List Char), substLoop esc q vs = substSplit esc q vs := by
  intro vs
  induction vs with
  | nil => intro q; rfl
  | cons v vt ih =>
    intro q
    rw [substLoop, substSplit, strIndex_eq_splitQ]
    cases h : splitQ q with
    | none => rfl
    | some p =>
      obtain ⟨hq, hna⟩ := splitQ_some q p.1 p.2 h
      have ht : q.take p.1.length = p.1 := by
        rw [hq]; exact List.take_left _ _
      have hd : q.drop (p.1.length + 1) = p.2 := by
        rw [hq, show p.1 ++ '?' :: p.2 = (p.1 ++ ['?']) ++ p.2 by simp]
        exact List.drop_left' (by simp)
      simp only [Option.map_some']
      rw [ht, hd]
      exact ih _

theorem splitQ_append : ∀ (a : List Char), '?' ∉ a → ∀ q : List Char,
    splitQ (a ++ q) = (splitQ q).map (fun p => (a ++ p.1, p.2)) := by
  intro a
  induction a with
  | nil => intro _ q; cases h : splitQ q <;> simp [h]
  | cons c t ih =>
    intro ha q
    have hc : c ≠ '?' := fun e => ha (by simp [e])
    have ht : '?' ∉ t := fun m => ha (by simp [m])
    cases h : splitQ q <;> simp [splitQ, hc, ih ht, h]

theorem substSplit_append (esc : String → String) :
    ∀ vs : List String, (∀ v ∈ vs, '?' ∉ (esc v).data) →
    ∀ pre q : List Char, '?' ∉ pre →
    substSplit esc (pre ++ q) vs = (substSpec esc q vs).map (fun r => pre ++ r) := by
  intro vs
  induction vs with
  | nil => intro _ pre q _; rfl
  | cons v vt ih =>
    intro hv pre q hpre
    rw [substSplit, substSpec, splitQ_append pre hpre q]
    cases h : splitQ q with
    | none => rfl
    | some p =>
      obtain ⟨hq, hna⟩ := splitQ_some q p.1 p.2 h
      simp only [Option.map_some']
      have hassoc : (pre ++ p.1) ++ ((esc v).data ++ p.2)
          = (pre ++ p.1 ++ (esc v).data) ++ p.2 := by simp
      have hpre2 : '?' ∉ pre ++ p.1 ++ (esc v).data := by
        simp only [List.mem_append]
        rintro ((h1 | h2) | h3)
        · exact hpre h1
        · exact hna h2
        · exact hv v (by simp) h3
      rw [List.append_assoc, hassoc,
        ih (fun u hu => hv u (by simp [hu])) (pre ++ p.1 ++ (esc v).data) p.2 hpre2]
      cases substSpec esc p.2 vt <;> simp [Except.map]

theorem substLoop_eq_substSpec (esc : String → String) (q : List Char) (vs : List String)
    (hv : ∀ v ∈ vs, '?' ∉ (esc v).data) :
    substLoop esc q vs = substSpec esc q vs := by
  have h2 := substSplit_append esc vs hv [] q (by simp)
  simp only [List.nil_append] at h2
  rw [substLoop_eq_substSplit, h2]
  cases h : substSpec esc q vs <;> simp [Except.map, h]

theorem exceptMap_eq_error {α β : Type} (x : Except PyError α) (f : α → β) (e : PyError) :
    x.map f = Except.error e ↔ x = Except.error e := by
  cases x <;> simp [Except.map]

theorem exceptMap_eq_ok {α β : Type} (x : Except PyError α) (f : α → β) (y : β) :
    x.map f = Except.ok y ↔ ∃ a, x = Except.ok a ∧ f a = y := by
  cases x <;> simp [Except.map]

theorem substSpec_error_iff (esc : String → String) :
    ∀ (vs : List String) (q : List Char),
    (substSpec esc q vs = .error (.substError substMsg)) ↔ q.count '?' < vs.length := by
  intro vs
  induction vs with
  | nil => intro q; simp [substSpec]
  | cons v vt ih =>
    intro q
    rw [substSpec]
    cases h : splitQ q with
    | none =>
      have h0 : q.count '?' = 0 := List.count_eq_zero.mpr ((splitQ_none_iff q).mp h)
      simp [h0]
    | some p =>
      have hc : q.count '?' = p.2.count '?' + 1 := by
        obtain ⟨hq, hna⟩ := splitQ_some q p.1 p.2 h
        rw [hq]
        simp [List.count_append, List.count_cons, List.count_eq_zero.mpr hna]
      rw [exceptMap_eq_error, ih p.2, hc]
      simp only [List.length_cons]
      omega

theorem substSpec_ok_count (esc : String → String) :
    ∀ vs : List String, (∀ v ∈ vs, '?' ∉ (esc v).data) →
    ∀ q r : List Char, substSpec esc q vs = .ok r →
    r.count '?' + vs.length = q.count '?' := by
  intro vs
  induction vs with
  | nil =>
    intro _ q r h
    rw [substSpec] at h
    cases h
    simp
  | cons v vt ih =>
    intro hv q r h
    cases hs : splitQ q with
    | none => rw [substSpec, hs] at h; cases h
    | some p =>
      obtain ⟨a, b⟩ := p
      rw [substSpec, hs] at h
      simp only [exceptMap_eq_ok] at h
      obtain ⟨r2, h2, hr⟩ := h
      obtain ⟨hq, hna⟩ := splitQ_some q a b hs
      have hr2 := ih (fun u hu => hv u (by simp [hu])) b r2 h2
      have he : ((esc v).data).count '?' = 0 :=
        List.count_eq_zero.mpr (hv v (by simp))
      have ha : a.count '?' = 0 := List.count_eq_zero.mpr hna
      rw [hq, ← hr]
      simp [List.count_append, List.count_cons] at he ha hr2 ⊢
      omega

/-- C1 (amended): provided no escaped substituted value contains a `?`
character, the substitution loop run by `Database.query` (values converted
with `str`, then escaped through the connection's escaping capability)
produces exactly the text described by the spec: each `?` replaced, in
left-to-right order, by the escaped textual form of the corresponding
value, with the search resuming past the replacement.  Without that
proviso the two differ, because the source re-runs `query.index('?')` on
the whole rewritten text each iteration (see the counterexample). -/
theorem claim_C1_thm (esc : String → String) (q : String) (vals : List PyValue)
    (hv : ∀ v ∈ vals, '?' ∉ (esc (pyStr v)).data) :
    substLoop esc q.data (vals.map pyStr) = substSpec esc q.data (vals.map pyStr) := by
  apply substLoop_eq_substSpec
  intro v hvm
  obtain ⟨u, hu, rfl⟩ := List.mem_map.mp hvm
  exact hv u hu

/-- C1 counterexample: for the query `"? ?"` and the two substitution
values `"?"` and `"y"` (two values, two placeholders), the source yields
`"y ?"` — the second value lands inside the first substituted value —
while the claimed advance-past-the-replacement algorithm yields `"? y"`. -/
theorem claim_C1_counterexample :
    ("? ?".data.count '?' = 2 ∧ ([PyValue.vStr "?", PyValue.vStr "y"]).length = 2)
    ∧ substLoop mysqlEscape "? ?".data
        ([PyValue.vStr "?", PyValue.vStr "y"].map pyStr) = .ok "y ?".data
    ∧ substSpec mysqlEscape "? ?".data
        ([PyValue.vStr "?", PyValue.vStr "y"].map pyStr) = .ok "? y".data
    ∧ "y ?".data ≠ "? y".data :=
  ⟨⟨by decide, by decide⟩, by rfl, by rfl, by decide⟩

/-- C1 witness: a run with ordinary values (no `?` in any escaped value)
in which the source loop and the spec algorithm agree. -/
theorem claim_C1_witness :
    substLoop mysqlEscape "a = ? AND b = ?".data
        ([PyValue.vStr "p", PyValue.vInt 5].map pyStr)
      = substSpec mysqlEscape "a = ? AND b = ?".data
        ([PyValue.vStr "p", PyValue.vInt 5].map pyStr) :=
  claim_C1_thm mysqlEscape "a = ? AND b = ?" [PyValue.vStr "p", PyValue.vInt 5] (by decide)

/-- C8 (amended): provided no escaped substituted value contains a `?`
character, the substitution loop of `Database.query` raises the
substitution-count error exactly when the supplied values outnumber the
`?` placeholders of the query; when it succeeds, the placeholders left
unsubstituted are exactly the original count minus the number of values
(so fewer values leave the trailing placeholders in place with no error).
Without the proviso, a `?` inside an already-substituted value is consumed
as a placeholder by a later value, and an excess of values can complete
without the error (see the counterexample). -/
theorem claim_C8_thm (esc : String → String) (q : String) (vals : List PyValue)
    (hv : ∀ v ∈ vals, '?' ∉ (esc (pyStr v)).data) :
    (substLoop esc q.data (vals.map pyStr) = .error (.substError substMsg)
      ↔ q.data.count '?' < vals.length)
    ∧ (∀ r, substLoop esc q.data (vals.map pyStr) = .ok r
      → r.count '?' + vals.length = q.data.count '?') := by
  have hv2 : ∀ v ∈ vals.map pyStr, '?' ∉ (esc v).data := by
    intro v hvm
    obtain ⟨u, hu, rfl⟩ := List.mem_map.mp hvm
    exact hv u hu
  rw [substLoop_eq_substSpec esc q.data (vals.map pyStr) hv2]
  constructor
  · rw [substSpec_error_iff esc (vals.map pyStr) q.data]
    simp
  · intro r hr
    have := substSpec_ok_count esc (vals.map pyStr) hv2 q.data r hr
    simpa using this

/-- C8 counterexample: the query `"?"` has one placeholder and two values
`"?"` and `"x"` are supplied — more values than placeholders — yet the
source raises no substitution-count error and returns `"x"`: the second
value was substituted for the `?` introduced by the first. -/
theorem claim_C8_counterexample :
    "?".data.count '?' = 1
    ∧ ([PyValue.vStr "?", PyValue.vStr "x"]).length = 2
    ∧ substLoop mysqlEscape "?".data
        ([PyValue.vStr "?", PyValue.vStr "x"].map pyStr) = .ok "x".data :=
  ⟨by decide, by decide, by rfl⟩

/-- C8 witness: with two ordinary values against one placeholder the
substitution-count error is raised. -/
theorem claim_C8_witness :
    substLoop mysqlEscape "x = ?".data ([PyValue.vInt 1, PyValue.vInt 2].map pyStr)
      = .error (.substError substMsg) :=
  (claim_C8_thm mysqlEscape "x = ?" [PyValue.vInt 1, PyValue.vInt 2] (by decide)).1.mpr
    (by decide)

/-! ## Lemmas: execute/retry discipline -/

/-- C2: when the first execution attempt inside `Database.query` fails, the
connection is re-probed and the statement retried exactly once (a successful
retry yields success); the retry's failure is swallowed — the operation
treated as successful — if and only if the first failure was a RuntimeError
and the retry error's first argument is the duplicate-primary-key code;
every other retry failure propagates unchanged to the caller. -/
theorem claim_C2_thm (f e : PyError) :
    (executeRetry (some f) none none = .ok ())
    ∧ (executeRetry (some f) none (some e) = .ok ()
        ↔ f.isRuntimeError = true ∧ 0 < e.args.length
          ∧ e.args.headD PyValue.vNone = MySQLErrors.duplicate_primary_key)
    ∧ (¬(f.isRuntimeError = true ∧ 0 < e.args.length
          ∧ e.args.headD PyValue.vNone = MySQLErrors.duplicate_primary_key)
        → executeRetry (some f) none (some e) = .error e) := by
  refine ⟨rfl, ?_, ?_⟩
  · simp only [executeRetry]
    by_cases h1 : f.isRuntimeError = true
      <;> by_cases h2 : 0 < e.args.length
      <;> by_cases h3 : e.args.headD PyValue.vNone = MySQLErrors.duplicate_primary_key
      <;> simp [h1, h2, h3]
  · intro hn
    simp only [executeRetry]
    rw [if_neg]
    intro hb
    simp only [Bool.and_eq_true, decide_eq_true_eq] at hb
    exact hn ⟨hb.1.1, hb.1.2, hb.2⟩

/-- C2 witness: a RuntimeError on the first attempt followed by a
duplicate-primary-key driver error on the retry is swallowed and the
operation reports success. -/
theorem claim_C2_witness :
    executeRetry (some (PyError.runtimeError "event loop fault")) none
      (some (PyError.operationalError
        [PyValue.vInt 1062, PyValue.vStr "Duplicate entry"])) = .ok () :=
  ((claim_C2_thm (PyError.runtimeError "event loop fault")
      (PyError.operationalError [PyValue.vInt 1062, PyValue.vStr "Duplicate entry"])).2.1).mpr
    (by refine ⟨rfl, by decide, by decide⟩)

/-! ## Lemmas: INSERT statement generation -/

theorem dropLast_pair (a b : Char) :
    ∀ l : List Char, (l ++ [a, b]).dropLast.dropLast = l := by
  intro l
  have h1 : l ++ [a, b] = (l ++ [a]) ++ [b] := by simp
  rw [h1, List.dropLast_concat, List.dropLast_concat]

theorem flatten_map_sep (sep : List Char) :
    ∀ items : List (List Char), items ≠ [] →
    (items.map (fun x => x ++ sep)).flatten = joinSep sep items ++ sep := by
  intro items
  induction items with
  | nil => intro h; exact absurd rfl h
  | cons x t ih =>
    intro _
    cases t with
    | nil => simp [joinSep]
    | cons y t2 =>
      simp only [List.map_cons, List.flatten_cons]
      rw [List.map_cons, List.flatten_cons] at ih
      rw [ih (by simp)]
      simp [joinSep, List.append_assoc]

theorem insertValItem_eq (esc : String → String) (v : PyValue) :
    insertValItem esc v = insertSpecVal esc v ++ ", ".data := by
  by_cases h : v = PyValue.vNone
  · simp only [insertValItem, insertSpecVal, if_pos h]
    decide
  · simp only [insertValItem, insertSpecVal, if_neg h]
    simp

/-- C7: the INSERT statement built by `Database.insert` is the header with
the derived table name, the declared field names joined in declaration
order, and — in the same order — for each field either the single-quoted
escaped textual form of its value or the unquoted literal `NULL` when the
value is the absence marker. -/
theorem claim_C7_thm (esc : String → String) (m : ModelInst) (h : m.fields ≠ []) :
    insertQueryData esc m
      = "INSERT INTO ".data ++ (_get_table_name m.className).data ++ " (".data
        ++ joinSep ", ".data (m.fields.map (fun f => f.name.data))
        ++ ")\nVALUES (".data
        ++ joinSep ", ".data (m.fields.map (fun f => insertSpecVal esc f.value))
        ++ ")".data := by
  simp only [insertQueryData]
  have hm : m.fields.map (fun f => insertValItem esc f.value)
      = (m.fields.map (fun f => insertSpecVal esc f.value)).map (fun x => x ++ ", ".data) := by
    rw [List.map_map]
    simp [insertValItem_eq]
  rw [hm, flatten_map_sep ", ".data _ (by simp [h])]
  rw [show (", ".data : List Char) = [',', ' '] by decide]
  rw [← List.append_assoc, dropLast_pair]

/-- C7 witness: the spec's example instance (`id = 1`, `name = "Alice"`,
`age` absent) on class `EventTeam` yields columns `(id, name, age)` and
values `('1', 'Alice', NULL)` in declared order. -/
theorem claim_C7_witness :
    mEx.fields ≠ []
    ∧ insertQueryData mysqlEscape mEx
      = "INSERT INTO event_teams (id, name, age)\nVALUES (".data
        ++ [quoteChar, '1', quoteChar] ++ ", ".data
        ++ quoteChar :: "Alice".data ++ [quoteChar]
        ++ ", NULL)".data := by
  refine ⟨by decide, ?_⟩
  rw [claim_C7_thm mysqlEscape mEx (by decide), table_name_eq_spec]
  decide

/-! ## Theorems: WHERE-clause resolution in Database.update -/

/-- C3 (code evaluated at the failing input): updating a model with no
primary-key-marked field and no caller-supplied WHERE clause fails with the
`ValueError` raised by `list.index`, not with the distinct missing-primary-
key error the claim describes — the source's `KeyError` branch is dead code
guarded by `pk_field_index >= 0`, which `list.index` can never falsify. -/
theorem claim_C3_thm :
    Database.update dbConn oracle0 mNoPk none = .error (.valueError "is not in list")
    ∧ ∀ msg, Database.update dbConn oracle0 mNoPk none ≠ .error (.keyError msg) := by
  have e : Database.update dbConn oracle0 mNoPk none
      = .error (.valueError "is not in list") := rfl
  exact ⟨e, fun msg h => PyError.noConfusion (Except.error.inj (e.symm.trans h))⟩

/-! ## Theorems: field validation in Model.__init__ -/

/-- C4 (code evaluated at the failing input): for a field declared
`Optional[int]`, supplying the value `0` — whose runtime class `int`
differs from the declared type and which is not the absence marker —
succeeds, because the optional branch tests the supplied value for
truthiness instead of comparing it with `None`; the claim (and the
source's own comment) requires a type-mismatch failure here. -/
theorem claim_C4_thm :
    modelInit [("age", FieldAnn.plain (TypeExpr.optional PyType.tInt))]
        [("age", PyValue.vInt 0)] []
      = .ok [("age", PyValue.vInt 0)]
    ∧ ∀ msg, modelInit [("age", FieldAnn.plain (TypeExpr.optional PyType.tInt))]
        [("age", PyValue.vInt 0)] []
      ≠ .error (.typeError msg) := by
  have e : modelInit [("age", FieldAnn.plain (TypeExpr.optional PyType.tInt))]
      [("age", PyValue.vInt 0)] [] = .ok [("age", PyValue.vInt 0)] := rfl
  exact ⟨e, fun msg h => Except.noConfusion (e.symm.trans h)⟩

/-- C10 (code evaluated at the failing input): a declared field that
already has a pre-existing default in the instance dict passes the
missing-value guard when its value is omitted, but the unconditional
`kwargs[field]` read that follows raises a `KeyError` — construction fails
even though the claim says the default makes it succeed (and the failure
is not the missing-value error either). -/
theorem claim_C10_thm :
    modelInit [("name", FieldAnn.plain (TypeExpr.cls PyType.tStr))] []
        [("name", PyValue.vStr "Bob")]
      = .error (.keyError "name")
    ∧ (∀ msg, modelInit [("name", FieldAnn.plain (TypeExpr.cls PyType.tStr))] []
        [("name", PyValue.vStr "Bob")]
      ≠ .error (.attributeError msg))
    ∧ (∀ d, modelInit [("name", FieldAnn.plain (TypeExpr.cls PyType.tStr))] []
        [("name", PyValue.vStr "Bob")]
      ≠ .ok d) := by
  have e : modelInit [("name", FieldAnn.plain (TypeExpr.cls PyType.tStr))] []
      [("name", PyValue.vStr "Bob")] = .error (.keyError "name") := rfl
  refine ⟨e, fun msg h => ?_, fun d h => ?_⟩
  · exact PyError.noConfusion (Except.error.inj (e.symm.trans h))
  · exact Except.noConfusion (e.symm.trans h)

/-! ## Theorems: Database.connect -/

/-- C6 (code evaluated at the failing input): the `port` parameter accepted
by `Database.connect` (documented as the port to connect to, default 3306)
is never forwarded to the external `aiomysql.connect` call — the argument
record carries no port keyword and is independent of the supplied port. -/
theorem claim_C6_thm (host username password database_name : String)
    (port : Nat) (autocommit : Bool) :
    (Database.connect host username password database_name port autocommit).port = none
    ∧ Database.connect host username password database_name port autocommit
      = Database.connect host username password database_name 3306 autocommit :=
  ⟨rfl, rfl⟩

/-! ## Theorems: uninitialized-connection behaviour -/

/-- C9 (amended): on a never-connected `Database`, `query`, `insert` and
`update` with an explicit non-empty WHERE clause all fail with the
uninitialized-connection error; `update` *without* an explicit clause does
not — it resolves the WHERE clause first and trips over the absent
connection earlier (see the counterexample). -/
theorem claim_C9_thm :
    (∀ (o : ExecOracle) (q : String) (subs : List PyValue),
      Database.query dbNone o q subs true
        = .error (.initializationError "Database connection was never initialized"))
    ∧ (∀ (o : ExecOracle) (m : ModelInst),
      Database.insert dbNone o m
        = .error (.initializationError "Database connection was never initialized"))
    ∧ (∀ (o : ExecOracle) (m : ModelInst) (w : String), w ≠ "" →
      Database.update dbNone o m (some w)
        = .error (.initializationError "Database connection was never initialized")) := by
  refine ⟨fun o q subs => rfl, fun o m => rfl, fun o m w hw => ?_⟩
  simp only [Database.update, resolveWhere, if_neg hw]
  rfl

/-- C9 counterexample: `update` called without an explicit WHERE clause on
a never-connected database (model with a primary-key field) fails with an
`AttributeError` from the `None` connection's `escape_string` access during
WHERE-clause generation — not with the uninitialized-connection error the
claim requires for every Session operation. -/
theorem claim_C9_counterexample :
    Database.update dbNone oracle0 mPk none
      = .error (.attributeError "NoneType object has no attribute escape_string")
    ∧ ∀ msg, Database.update dbNone oracle0 mPk none
      ≠ .error (.initializationError msg) := by
  have e : Database.update dbNone oracle0 mPk none
      = .error (.attributeError "NoneType object has no attribute escape_string") := rfl
  exact ⟨e, fun msg h => PyError.noConfusion (Except.error.inj (e.symm.trans h))⟩

/-- C9 witness: `update` with an explicit WHERE clause on a never-connected
database does report the uninitialized-connection error. -/
theorem claim_C9_witness :
    Database.update dbNone oracle0 mPk (some "WHERE id = 2")
      = .error (.initializationError "Database connection was never initialized") :=
  claim_C9_thm.2.2 oracle0 mPk "WHERE id = 2" (by decide)
